import Mathlib

/-!
Verification of the nb-rs schema-driven category generator (build.rs) and
the response deserialization helper (src/lib.rs), as a shallow embedding.

Rust strings are modelled by Lean `String`; `usize` by `Nat` with an explicit
bound `USIZE_MAX` where the Rust parse can overflow; fallible Rust operations
(parsing, `TryFrom`, panicking slicing) return `Option`.
-/

/-- `usize::MAX` on a 64-bit target: `usize` parsing fails above this bound. -/
def USIZE_MAX : Nat := 2 ^ 64 - 1

/-- Digit run to value, requiring a nonempty all-digit run; mirrors the digit
loop of Rust integer `from_str` (base 10). -/
def parseDigits (cs : List Char) : Option Nat :=
  match cs with
  | [] => none
  | _ =>
    if cs.all Char.isDigit then
      some (cs.foldl (fun a c => a * 10 + (c.toNat - '0'.toNat)) 0)
    else none

/-- Rust `<usize as FromStr>::from_str`: an optional leading `+`, then a
nonempty run of base-10 digits, erroring on overflow past `usize::MAX`. -/
def parseUsize (s : String) : Option Nat :=
  let cs :=
    match s.data with
    | '+' :: rest => rest
    | cs => cs
  match parseDigits cs with
  | some n => if n ≤ USIZE_MAX then some n else none
  | none => none

/-- Raw schema entry as deserialized from JSON (build.rs `EndpointDescInternal`). -/
structure EndpointDescInternal where
  min : String
  max : String
  format : String
deriving DecidableEq

/-- Validated descriptor (build.rs `EndpointDesc`). -/
structure EndpointDesc where
  min : Nat
  max : Nat
  format : String
  with_padding : Nat
deriving DecidableEq

/-- build.rs `impl TryFrom<EndpointDescInternal> for EndpointDesc`: parse `min`
and `max` with `?` early return, keep `format`, and set `with_padding` to
`d.max.len()` (the byte length of the raw `max` string). -/
def EndpointDesc.tryFrom (d : EndpointDescInternal) : Option EndpointDesc :=
  match parseUsize d.min, parseUsize d.max with
  | some mn, some mx =>
    some { min := mn, max := mx, format := d.format, with_padding := d.max.utf8ByteSize }
  | _, _ => none

/-- Number of digits of the canonical base-10 rendering of `n` (the spec's
`decimal_digit_count`). -/
def decimalDigitCount (n : Nat) : Nat := (Nat.repr n).length

example : parseUsize "150" = some 150 := by decide
example : parseUsize "+5" = some 5 := by decide
example : parseUsize "07" = some 7 := by decide
example : parseUsize "abc" = none := by decide
example : parseUsize "" = none := by decide
example : EndpointDesc.tryFrom ⟨"10", "5", "png"⟩ = some ⟨10, 5, "png", 1⟩ := by decide

/-- Identifier-start characters accepted by `proc_macro2::Ident::new`:
`XID_Start` or `_`. Exact on ASCII (`XID_Start ∩ ASCII` is the letters);
non-ASCII identifier characters are not modelled, and every theorem below
evaluates this on ASCII strings only. -/
def isIdentStart (c : Char) : Bool := c = '_' || c.isAlpha

/-- Identifier-continue characters accepted by `proc_macro2::Ident::new`:
`XID_Continue`. Exact on ASCII (letters, digits and `_`). -/
def isIdentContinue (c : Char) : Bool := c.isAlpha || c.isDigit || c = '_'

/-- The validation `proc_macro2::Ident::new` runs on the string built by
`format_ident!` (a failure is a panic): nonempty, an identifier-start first
character, identifier-continue characters after it. -/
def identOk (s : String) : Bool :=
  match s.data with
  | [] => false
  | c :: rest => isIdentStart c && rest.all isIdentContinue

/-- build.rs `CategoryData::to_tokens` identifier derivation: the literal
`"thumbsup"` maps to `ThumbsUp`; otherwise `self.0[..1].to_uppercase()`
prepended to `&self.0[1..]`, passed to `format_ident!`. Panics, modelled as
`none`: the byte slices panic when the name is empty or its first character
occupies more than one byte (byte index 1 is not a char boundary), and
`format_ident!` panics when the resulting string is not a valid identifier
(`identOk`). For a one-byte (ASCII) first character `str::to_uppercase`
agrees with `Char.toUpper`. -/
def nameToIdent (s : String) : Option String :=
  if s = "thumbsup" then some "ThumbsUp"
  else
    match s.data with
    | [] => none
    | c :: rest =>
      if c.toNat < 128 then
        let id := String.mk (Char.toUpper c :: rest)
        if identOk id then some id else none
      else none

/-- The identifier rule as the spec words it: upper-case the first character,
keep the remainder, with the single explicit exception
`"thumbsup" ↦ "ThumbsUp"`. -/
def specIdent (s : String) : String :=
  if s = "thumbsup" then "ThumbsUp"
  else
    match s.data with
    | [] => ""
    | c :: rest => String.mk (Char.toUpper c :: rest)

/-- One emitted item of the generated artifact: the identifier and the four
constants bound into the `quote!` template of `CategoryData::to_tokens`. -/
structure GenBlock where
  ident : String
  min : Nat
  max : Nat
  with_padding : Nat
  format : String
deriving DecidableEq

/-- The tokens `CategoryData(name, desc).to_tokens` appends for one category;
`none` models the panic of the identifier derivation. -/
def categoryBlock (name : String) (d : EndpointDesc) : Option GenBlock :=
  (nameToIdent name).map fun id =>
    { ident := id, min := d.min, max := d.max
      with_padding := d.with_padding, format := d.format }

/-- Rendering of one block's token stream to source text (build.rs `quote!`
body followed by `TokenStream::to_string`), up to token spacing. -/
def renderBlock (b : GenBlock) : String :=
  "pub struct " ++ b.ident ++ " ; " ++
  "impl super :: LocalNekosBestCategory for " ++ b.ident ++ " \x7b " ++
  "const CATEGORY : crate :: Category = crate :: Category :: " ++ b.ident ++ " ; " ++
  "const MIN : usize = " ++ Nat.repr b.min ++ " ; " ++
  "const MAX : usize = " ++ Nat.repr b.max ++ " ; " ++
  "const WITH_PADDING : usize = " ++ Nat.repr b.with_padding ++ " ; " ++
  "const FORMAT : & \x27static str = \x22" ++ b.format ++ "\x22 ; \x7d " ++
  "impl " ++ b.ident ++ " \x7b " ++
  "pub fn get_random ( & self , random : usize ) -> String \x7b " ++
  "< Self as super :: LocalNekosBestCategory > :: get_random ( self , random ) \x7d " ++
  "pub fn get ( & self ) -> String \x7b " ++
  "< Self as super :: LocalNekosBestCategory > :: get ( self ) \x7d \x7d "

/-- build.rs `main`: map each `(name, endpoint)` pair of the iteration
sequence to its tokens and collect; the first panic aborts everything. -/
def generate (l : List (String × EndpointDesc)) : Option (List GenBlock) :=
  match l with
  | [] => some []
  | (n, d) :: rest =>
    match categoryBlock n d with
    | some b => (generate rest).map (b :: ·)
    | none => none

/-- The bytes written to `local_implementation.rs`: the collected token
stream rendered to a string, for a given iteration sequence of the map. -/
def generateArtifact (l : List (String × EndpointDesc)) : Option String :=
  (generate l).map fun bs => String.join (bs.map renderBlock)

example : nameToIdent "hug" = some "Hug" := by decide
example : nameToIdent "thumbsup" = some "ThumbsUp" := by decide
example : nameToIdent "" = none := by decide
example : nameToIdent "1up" = none := by decide
example : nameToIdent "a b" = none := by decide
example : nameToIdent "-x" = none := by decide
example : nameToIdent "_up" = some "_up" := by decide

/-- JSON values, as the shapes serde sees. -/
inductive Json where
  | null
  | bool (b : Bool)
  | num (n : Int)
  | str (s : String)
  | arr (xs : List Json)
  | obj (kvs : List (String × Json))

/-- serde derive for `EndpointDescInternal`: an object with string fields
`min`, `max`, `format` (unknown fields ignored, wrong type or missing field
is an error). -/
def decodeInternal (j : Json) : Option EndpointDescInternal :=
  match j with
  | .obj kvs =>
    match kvs.lookup "min", kvs.lookup "max", kvs.lookup "format" with
    | some (.str mn), some (.str mx), some (.str f) => some ⟨mn, mx, f⟩
    | _, _, _ => none
  | _ => none

/-- One map entry of the endpoints document: deserialize the value through
`EndpointDescInternal` and the `try_from` conversion (serde
`#[serde(try_from = ...)]`). -/
def decodeEndpointEntry (p : String × Json) : Option (String × EndpointDesc) :=
  (decodeInternal p.2).bind fun d => (EndpointDesc.tryFrom d).map fun e => (p.1, e)

/-- Entries of the map document in order; the first failing entry aborts the
whole deserialization, as serde map deserialization does. -/
def decodeEntries (kvs : List (String × Json)) : Option (List (String × EndpointDesc)) :=
  match kvs with
  | [] => some []
  | p :: rest =>
    match decodeEndpointEntry p with
    | some e => (decodeEntries rest).map (e :: ·)
    | none => none

/-- Deserializing `HashMap<String, EndpointDesc>` from a JSON document: a JSON
object whose every entry deserializes, anything else an error. -/
def deserializeEndpoints (j : Json) : Option (List (String × EndpointDesc)) :=
  match j with
  | .obj kvs => decodeEntries kvs
  | _ => none

/-- build.rs `BASE_URL`. -/
def BASE_URL : String := "https://nekos.best/api/v2"

/-- The fixed schema endpoint `format!` builds: `{BASE_URL}/endpoints`. -/
def endpointsUrl : String := BASE_URL ++ "/endpoints"

/-- build.rs `get_endpoints_data`, over the `DOCS_RS` environment variable,
the embedded `rustdoc-endpoints.json` snapshot and the network response body.
Returns the deserialized mapping together with the list of URLs the function
requested over the network (empty in docs mode, exactly one GET otherwise). -/
def get_endpoints_data (docsRsVar : Option String) (embeddedSnapshot : Json)
    (networkBody : Json) : Option (List (String × EndpointDesc)) × List String :=
  match docsRsVar with
  | some _ => (deserializeEndpoints embeddedSnapshot, [])
  | none => (deserializeEndpoints networkBody, [endpointsUrl])

/-- Modelled from the spec: the runtime `fold` of the `LocalNekosBestCategory`
capability contract lives in `src/local.rs`, which is not present under the
sources; §4.4 defines it as `folded = MIN + (value mod (MAX - MIN + 1))` with
non-negative modulo semantics (Lean's `Int.emod`). -/
def fold (MIN MAX : Nat) (v : Int) : Int :=
  (MIN : Int) + v % ((MAX : Int) - (MIN : Int) + 1)

/-- `Vec<T>` deserialization from a JSON sequence, for element deserializer
`dec`: elementwise in order, the first error aborts. -/
def decodeList {α : Type} (dec : Json → Option α) : List Json → Option (List α)
  | [] => some []
  | j :: rest =>
    match dec j with
    | some x => (decodeList dec rest).map (x :: ·)
    | none => none

/-- lib.rs `serde_utils::response_or_seq_response`, parameterized (as serde's
`Deserialize` is) by the element deserializer `dec`: serde_json routes `null`
to `visit_none` (empty vector), any other value through `visit_some` and
`deserialize_any` — a sequence to `visit_seq` (elementwise), a map to
`visit_map` (a one-element vector), everything else to an error. -/
def response_or_seq_response {α : Type} (dec : Json → Option α) (j : Json) :
    Option (List α) :=
  match j with
  | .null => some []
  | .arr xs => decodeList dec xs
  | .obj kvs => (dec (.obj kvs)).map fun x => [x]
  | _ => none

/-- A concrete element deserializer for instantiating the combinator: reads the
`url` string field of a response object. -/
def decUrl (j : Json) : Option String :=
  match j with
  | .obj kvs =>
    match kvs.lookup "url" with
    | some (.str u) => some u
    | _ => none
  | _ => none

/-- A sample validated descriptor used in concrete instances below. -/
def sampleDesc : EndpointDesc := ⟨0, 9, "png", 1⟩

/-- C1 counterexample: the entry with `min: "10"`, `max: "5"` passes the
`TryFrom` validation (both fields parse), producing a descriptor with
`min = 10 > 5 = max`, and a generated type is produced from it — the claimed
`min <= max` invariant check does not exist in the code. -/
theorem C1_counterexample :
    EndpointDesc.tryFrom ⟨"10", "5", "png"⟩ = some ⟨10, 5, "png", 1⟩ ∧
    (categoryBlock "baka" ⟨10, 5, "png", 1⟩).isSome = true := by decide

/-- C1 (amended): validation only requires `min` and `max` to parse as
`usize`; whenever both parse, the conversion succeeds regardless of whether
`min <= max` holds, and the resulting descriptor is generated from. -/
theorem C1_validation_has_no_min_max_check (d : EndpointDescInternal) (mn mx : Nat)
    (h1 : parseUsize d.min = some mn) (h2 : parseUsize d.max = some mx) :
    EndpointDesc.tryFrom d =
      some { min := mn, max := mx, format := d.format,
             with_padding := d.max.utf8ByteSize } := by
  unfold EndpointDesc.tryFrom
  rw [h1, h2]

/-- C1 witness: the amended statement at the concrete `min: "10"`, `max: "5"`
entry. -/
theorem C1_witness :
    EndpointDesc.tryFrom ⟨"10", "5", "png"⟩ = some ⟨10, 5, "png", 1⟩ :=
  C1_validation_has_no_min_max_check ⟨"10", "5", "png"⟩ 10 5 (by decide) (by decide)

/-- C2 counterexample: it is not true that `with_padding` equals the decimal
digit count of the parsed `max` for every validated entry: the raw string
`"07"` parses to `7` (one digit) yet yields `with_padding = 2`. -/
theorem C2_counterexample :
    ¬ (∀ d e, EndpointDesc.tryFrom d = some e →
        e.with_padding = decimalDigitCount e.max) := by
  intro h
  have := h ⟨"0", "07", "png"⟩ ⟨0, 7, "png", 2⟩ (by decide)
  revert this
  decide

/-- C2 (amended): for every entry that passes validation, `with_padding`
equals the byte length of the raw `max` string (`d.max.len()`), which
coincides with the decimal digit count of the parsed value only for canonical
strings without leading zeros or sign. -/
theorem C2_with_padding_is_raw_length (d : EndpointDescInternal) (e : EndpointDesc)
    (h : EndpointDesc.tryFrom d = some e) : e.with_padding = d.max.utf8ByteSize := by
  unfold EndpointDesc.tryFrom at h
  split at h
  · cases h; rfl
  · exact Option.noConfusion h

/-- C2 witness: the amended statement at the concrete entry
`{min: "1", max: "150"}`. -/
theorem C2_witness :
    (⟨1, 150, "png", 3⟩ : EndpointDesc).with_padding = ("150" : String).utf8ByteSize :=
  C2_with_padding_is_raw_length ⟨"1", "150", "png"⟩ ⟨1, 150, "png", 3⟩ (by decide)

/-- C3: `fold` equals `MIN + (value mod (MAX - MIN + 1))` under non-negative
modulo semantics and, whenever `MIN <= MAX`, lies in the inclusive range
`[MIN, MAX]` for every integer input; when `MIN = MAX` it returns `MIN`. -/
theorem C3_fold_in_range (MIN MAX : Nat) (v : Int) (h : MIN ≤ MAX) :
    (fold MIN MAX v = (MIN : Int) + v % ((MAX : Int) - (MIN : Int) + 1)) ∧
    ((MIN : Int) ≤ fold MIN MAX v ∧ fold MIN MAX v ≤ (MAX : Int)) ∧
    (MIN = MAX → fold MIN MAX v = (MIN : Int)) := by
  have hle : (MIN : Int) ≤ (MAX : Int) := by exact_mod_cast h
  have hR : (0 : Int) < (MAX : Int) - (MIN : Int) + 1 := by omega
  have hnn : 0 ≤ v % ((MAX : Int) - (MIN : Int) + 1) := Int.emod_nonneg v (ne_of_gt hR)
  have hlt : v % ((MAX : Int) - (MIN : Int) + 1) < (MAX : Int) - (MIN : Int) + 1 :=
    Int.emod_lt_of_pos v hR
  unfold fold
  refine ⟨rfl, ⟨by omega, by omega⟩, fun he => ?_⟩
  subst he
  omega

/-- C3 witness: the concrete scenario of §8 — a descriptor with
`min = 1`, `max = 150` maps `v = -1` into `[1, 150]` (to `150`), and a
degenerate descriptor with `min = max = 5` folds any input to `5`. -/
theorem C3_witness :
    ((1 : Int) ≤ fold 1 150 (-1) ∧ fold 1 150 (-1) ≤ 150) ∧
    fold 5 5 (-7) = 5 :=
  ⟨(C3_fold_in_range 1 150 (-1) (by decide)).2.1,
   (C3_fold_in_range 5 5 (-7) (by decide)).2.2 rfl⟩

/-- If one entry of the map fails to deserialize, the whole map
deserialization fails. -/
theorem decodeEntries_eq_none (kvs : List (String × Json)) (p : String × Json)
    (hp : p ∈ kvs) (hfail : decodeEndpointEntry p = none) :
    decodeEntries kvs = none := by
  induction kvs with
  | nil => cases hp
  | cons q rest ih =>
    unfold decodeEntries
    rcases List.mem_cons.mp hp with h | h
    · subst h; rw [hfail]
    · cases hq : decodeEndpointEntry q
      · rfl
      · rw [ih h]; rfl

/-- C4: for any endpoints document containing an entry whose `min` or `max`
string fails unsigned base-10 parsing, deserialization of the whole map (and
with it `get_endpoints_data`, whose result `main` unwraps with `?`) fails: no
partial schema is produced. -/
theorem C4_parse_failure_aborts_build (kvs : List (String × Json))
    (p : String × Json) (d : EndpointDescInternal) (hp : p ∈ kvs)
    (hd : decodeInternal p.2 = some d)
    (hfail : parseUsize d.min = none ∨ parseUsize d.max = none) :
    deserializeEndpoints (Json.obj kvs) = none := by
  have htf : EndpointDesc.tryFrom d = none := by
    unfold EndpointDesc.tryFrom
    rcases hfail with hf | hf
    · rw [hf]
    · cases hmn : parseUsize d.min <;> rw [hf]
  have hentry : decodeEndpointEntry p = none := by
    unfold decodeEndpointEntry
    rw [hd]
    simp [htf]
  exact decodeEntries_eq_none kvs p hp hentry

/-- C4 witness: a two-entry document whose `cry` entry has `max: "abc"` fails
as a whole, even though the `baka` entry is valid. -/
theorem C4_witness :
    deserializeEndpoints (Json.obj
      [("baka", Json.obj [("min", Json.str "1"), ("max", Json.str "10"),
         ("format", Json.str "png")]),
       ("cry", Json.obj [("min", Json.str "1"), ("max", Json.str "abc"),
         ("format", Json.str "png")])]) = none :=
  C4_parse_failure_aborts_build _
    ("cry", Json.obj [("min", Json.str "1"), ("max", Json.str "abc"),
      ("format", Json.str "png")])
    ⟨"1", "abc", "png"⟩
    (List.mem_cons_of_mem _ (List.mem_cons_self _ _))
    (by decide) (Or.inr (by decide))

/-- C5: for every category name on which the derivation is defined — nonempty,
one-byte first character, and the capitalized string a valid identifier (else
`format_ident!` panics) — the derived identifier follows the spec's rule:
first character upper-cased, remainder unchanged, with the single explicit
exception `"thumbsup" ↦ "ThumbsUp"`. -/
theorem C5_capitalization_rule (s : String) (c : Char) (r : List Char)
    (hdata : s.data = c :: r) (hascii : c.toNat < 128)
    (hok : identOk (String.mk (Char.toUpper c :: r)) = true) :
    nameToIdent s = some (specIdent s) := by
  by_cases hs : s = "thumbsup"
  · subst hs; decide
  · unfold nameToIdent specIdent
    rw [if_neg hs, if_neg hs, hdata]
    simp [hascii, hok]

/-- C5 witness: the rule at the ordinary name `"hug"` and the exceptional
name `"thumbsup"`. -/
theorem C5_witness :
    nameToIdent "hug" = some (specIdent "hug") ∧
    nameToIdent "thumbsup" = some (specIdent "thumbsup") :=
  ⟨C5_capitalization_rule "hug" 'h' ['u', 'g'] (by decide) (by decide) (by decide),
   C5_capitalization_rule "thumbsup" 't' ['h', 'u', 'm', 'b', 's', 'u', 'p']
     (by decide) (by decide) (by decide)⟩

/-- C6 counterexample: `"hug"` and `"Hug"` are two distinct names mapping to
the same identifier `Hug`, yet generation over a sequence containing both
succeeds (it does not fail fatally) and writes an artifact. -/
theorem C6_counterexample :
    ("hug" : String) ≠ "Hug" ∧
    nameToIdent "hug" = nameToIdent "Hug" ∧
    generateArtifact [("hug", sampleDesc), ("Hug", sampleDesc)] ≠ none := by decide

/-- C6 (amended): the generator performs no identifier-collision check: it
emits exactly one block per validated entry unconditionally, so colliding
identifiers are all emitted (any failure would only arise later, when the
generated artifact itself is compiled). -/
theorem C6_one_block_per_entry (l : List (String × EndpointDesc))
    (r : List GenBlock) (h : generate l = some r) : r.length = l.length := by
  induction l generalizing r with
  | nil =>
    unfold generate at h
    cases h
    rfl
  | cons p rest ih =>
    obtain ⟨n, d⟩ := p
    unfold generate at h
    cases hb : categoryBlock n d with
    | none => rw [hb] at h; exact Option.noConfusion h
    | some b =>
      rw [hb] at h
      cases hr : generate rest with
      | none => rw [hr] at h; exact Option.noConfusion h
      | some r2 =>
        rw [hr] at h
        cases h
        simp [ih r2 hr]

/-- C6 witness: the amended statement on the colliding two-entry sequence:
both blocks, with the same identifier, are emitted. -/
theorem C6_witness :
    ([⟨"Hug", 0, 9, 1, "png"⟩, ⟨"Hug", 0, 9, 1, "png"⟩] : List GenBlock).length =
      ([("hug", sampleDesc), ("Hug", sampleDesc)] : List (String × EndpointDesc)).length :=
  C6_one_block_per_entry _ _ (by decide)

/-- C7 counterexample: the artifact bytes depend on the iteration order of the
map — the same two validated entries visited in the two possible orders (as a
`HashMap`'s randomized iteration may do across runs) give different bytes. -/
theorem C7_counterexample :
    generateArtifact [("hug", sampleDesc), ("pat", sampleDesc)] ≠
      generateArtifact [("pat", sampleDesc), ("hug", sampleDesc)] := by decide

/-- C7 (amended): generation is a pure function of the iteration sequence of
the validated mapping: two runs that visit the same entries in the same order
produce byte-identical artifacts; stability across runs holds only up to the
`HashMap` iteration order. -/
theorem C7_deterministic_given_order (l1 l2 : List (String × EndpointDesc))
    (h : l1 = l2) : generateArtifact l1 = generateArtifact l2 := by rw [h]

/-- C7 witness: the amended statement at a concrete sequence. -/
theorem C7_witness :
    generateArtifact [("hug", sampleDesc)] = generateArtifact [("hug", sampleDesc)] :=
  C7_deterministic_given_order _ _ rfl

/-- C8: the fetcher selects its source by the `DOCS_RS` environment flag —
when the flag is set it deserializes the embedded snapshot and performs no
network request; otherwise it performs exactly one GET to the fixed schema
endpoint `BASE_URL/endpoints` and deserializes the JSON body. -/
theorem C8_fetch_source_selection (emb net : Json) :
    (∀ v, get_endpoints_data (some v) emb net = (deserializeEndpoints emb, [])) ∧
    get_endpoints_data none emb net = (deserializeEndpoints net, [endpointsUrl]) :=
  ⟨fun _ => rfl, rfl⟩

/-- C9: the identifier derivation requires a nonempty name whose first
character is one byte: it panics (modelled as `none`) on the empty name and on
any name whose first character is multi-byte. On a nonempty name with a
one-byte first character whose capitalization is a valid identifier (the
further `format_ident!` requirement) it produces an identifier. -/
theorem C9_ident_derivation_undefined_cases :
    nameToIdent "" = none ∧
    (∀ s c r, s.data = c :: r → 128 ≤ c.toNat → nameToIdent s = none) ∧
    (∀ s c r, s.data = c :: r → c.toNat < 128 →
      identOk (String.mk (Char.toUpper c :: r)) = true →
      (nameToIdent s).isSome = true) := by
  refine ⟨by decide, ?_, ?_⟩
  · intro s c r hdata hge
    have hs : s ≠ "thumbsup" := by
      intro hs
      subst hs
      have hknown : ("thumbsup" : String).data =
          't' :: ['h', 'u', 'm', 'b', 's', 'u', 'p'] := by decide
      rw [hknown] at hdata
      injection hdata with h1 _
      rw [← h1] at hge
      exact absurd hge (by decide)
    unfold nameToIdent
    rw [if_neg hs, hdata]
    have hc : ¬ (c.toNat < 128) := by omega
    simp [hc]
  · intro s c r hdata hlt hok
    by_cases hs : s = "thumbsup"
    · subst hs; decide
    · unfold nameToIdent
      rw [if_neg hs, hdata]
      simp [hlt, hok]

/-- C9 witness: the derivation panics (is `none`) on the empty name and on a
name starting with the two-byte character `ü`, and succeeds on `"hug"`. -/
theorem C9_witness :
    nameToIdent "" = none ∧ nameToIdent "ü" = none ∧
    (nameToIdent "hug").isSome = true :=
  ⟨C9_ident_derivation_undefined_cases.1,
   C9_ident_derivation_undefined_cases.2.1 "ü" 'ü' [] (by decide) (by decide),
   C9_ident_derivation_undefined_cases.2.2 "hug" 'h' ['u', 'g'] (by decide)
     (by decide) (by decide)⟩

/-- C10: deserializing the `url` field accepts three JSON shapes, for any
element deserializer `dec` (as the Rust code is generic over `Deserialize`):
`null` gives the empty list, an array decodes elementwise, and a single
object decodes to a one-element list containing it. -/
theorem C10_response_shapes {α : Type} (dec : Json → Option α) :
    response_or_seq_response dec Json.null = some [] ∧
    (∀ xs, response_or_seq_response dec (Json.arr xs) = decodeList dec xs) ∧
    (∀ kvs x, dec (Json.obj kvs) = some x →
      response_or_seq_response dec (Json.obj kvs) = some [x]) ∧
    (∀ j x js ys, dec j = some x → decodeList dec js = some ys →
      decodeList dec (j :: js) = some (x :: ys)) := by
  refine ⟨rfl, fun xs => rfl, ?_, ?_⟩
  · intro kvs x h
    simp [response_or_seq_response, h]
  · intro j x js ys h1 h2
    simp [decodeList, h1, h2]

/-- C10 witness: the single-object and array shapes at concrete inputs, with
the concrete `url`-field element deserializer. -/
theorem C10_witness :
    response_or_seq_response decUrl (Json.obj [("url", Json.str "a")]) = some ["a"] ∧
    decodeList decUrl
      [Json.obj [("url", Json.str "a")], Json.obj [("url", Json.str "b")]] =
      some ["a", "b"] :=
  ⟨(C10_response_shapes decUrl).2.2.1 [("url", Json.str "a")] "a" rfl,
   (C10_response_shapes decUrl).2.2.2 (Json.obj [("url", Json.str "a")]) "a"
     [Json.obj [("url", Json.str "b")]] ["b"] rfl rfl⟩
